import Mathlib

/-!
Shallow embedding of poppeman/SimpleOVR (src/SimpleOVR_D3D11/SimpleOVR_D3D11.cpp),
a single-translation-unit Direct3D 11 / LibOVR 0.4 stereo rendering example.

Conventions of the embedding:
* C `int` dimensions are modelled as `Int`; C integer division (truncation
  toward zero) is `Int.tdiv`.
* `float` scalars are modelled as `ℚ` (exact arithmetic standing in for the
  deterministic floating-point evaluation of the source).
* Calls into the LibOVR SDK whose bodies live outside this repository
  (`ovrMatrix4f_Projection`, `OVR::Matrix4f::LookAtRH`,
  `OVR::Quatf(axis, angle)`, `ovrHmd_GetFovTextureSize`) are abstracted as
  function-valued parameters; the embedding records exactly which arguments
  the program passes to them and how their results are combined.
* Quaternion multiplication and `Quatf::Rotate` (header-only OVR math used
  by the per-eye pose composition) are modelled concretely.
* The interactive frame loop is modelled as a trace-producing function over
  a finite schedule of OS message batches (one batch per loop iteration).
-/

/-- Model of `ovrSizei`: a width/height pair of C ints. -/
structure Sizei where
  w : Int
  h : Int
deriving DecidableEq, Repr

/-- Model of `ovrVector2i`. -/
structure Vector2i where
  x : Int
  y : Int
deriving DecidableEq, Repr

/-- Model of `ovrRecti`: position and size. -/
structure Recti where
  Pos : Vector2i
  Size : Sizei
deriving DecidableEq, Repr

/-- Model of `ovrFovPort`: tangents of the four half-angles of an eye frustum. -/
structure FovPort where
  UpTan : ℚ
  DownTan : ℚ
  LeftTan : ℚ
  RightTan : ℚ
deriving DecidableEq, Repr

/-- Model of `OVR::Vector3f`. -/
structure Vector3f where
  x : ℚ
  y : ℚ
  z : ℚ
deriving DecidableEq, Repr

/-- Model of `OVR::Quatf`. -/
structure Quatf where
  x : ℚ
  y : ℚ
  z : ℚ
  w : ℚ
deriving DecidableEq, Repr

/-- Model of `OVR::Posef`: a rotation plus a translation. -/
structure Posef where
  Rotation : Quatf
  Translation : Vector3f
deriving DecidableEq, Repr

/-- Model of `OVR::Matrix4f`, row major: `m i j` is entry `M[i][j]`. -/
structure Matrix4f where
  m : Fin 4 → Fin 4 → ℚ

/-- Componentwise vector addition (`OVR::Vector3f::operator+`). -/
def vecAdd (a b : Vector3f) : Vector3f :=
  ⟨a.x + b.x, a.y + b.y, a.z + b.z⟩

/-- Hamilton product (`OVR::Quatf::operator*`). -/
def quatMul (a b : Quatf) : Quatf :=
  ⟨a.w * b.x + a.x * b.w + a.y * b.z - a.z * b.y,
   a.w * b.y - a.x * b.z + a.y * b.w + a.z * b.x,
   a.w * b.z + a.x * b.y - a.y * b.x + a.z * b.w,
   a.w * b.w - a.x * b.x - a.y * b.y - a.z * b.z⟩

/-- Quaternion conjugate, `OVR::Quatf::Inverted()` for the unit quaternions
the sample manipulates. -/
def quatConj (a : Quatf) : Quatf := ⟨-a.x, -a.y, -a.z, a.w⟩

/-- Model of `OVR::Quatf::Rotate`: conjugation of the pure quaternion of `v`. -/
def quatRotate (q : Quatf) (v : Vector3f) : Vector3f :=
  let p := quatMul (quatMul q ⟨v.x, v.y, v.z, 0⟩) (quatConj q)
  ⟨p.x, p.y, p.z⟩

/-- Row-major matrix product (`OVR::Matrix4f::operator*`). -/
def matMul (a b : Matrix4f) : Matrix4f :=
  ⟨fun i j => (Finset.univ : Finset (Fin 4)).sum fun k => a.m i k * b.m k j⟩

/-- Model of `OVR::Matrix4f::Transposed()`. -/
def matTransposed (a : Matrix4f) : Matrix4f := ⟨fun i j => a.m j i⟩

/-- The 16 floats of a matrix in memory order (row major), as copied by the
`memcpy` into the mapped constant buffer. -/
def matToList (a : Matrix4f) : List ℚ :=
  (List.finRange 4).flatMap fun i => (List.finRange 4).map fun j => a.m i j

/-- Source line 71: `PixelsPerDisplayPixel = 1.0f`. -/
def PixelsPerDisplayPixel : ℚ := 1

/-- Source line 72: `MultisampleCount = 4`. -/
def MultisampleCount : Int := 4

/-- Source line 75. -/
def RightVector : Vector3f := ⟨1, 0, 0⟩

/-- Source line 76. -/
def UpVector : Vector3f := ⟨0, 1, 0⟩

/-- Source line 77. -/
def ForwardVector : Vector3f := ⟨0, 0, -1⟩

/-- Source line 82: `BodyPosition{0.5f, 0.5f, 0}`. -/
def BodyPosition : Vector3f := ⟨1/2, 1/2, 0⟩

/-- Source line 83: `BodyYaw{0.9f}` (an `OVR::Anglef`; `Get()` returns the
stored radians). -/
def BodyYaw : ℚ := 9/10

/-- The identifiers `ovrEye_Left = 0`, `ovrEye_Right = 1` as used to index
the two-element per-eye arrays. -/
abbrev Eye := Fin 2

def ovrEye_Left : Eye := 0

def ovrEye_Right : Eye := 1

/-- The fields of the `ovrHmd` handle the program reads, together with the
device-determined answer of `ovrHmd_GetFovTextureSize` (SDK code outside
this repository, abstracted as a function of the arguments the program
passes: eye identifier, fov port, pixels-per-display-pixel). -/
structure Hmd where
  DefaultEyeFov : Eye → FovPort
  EyeRenderOrder : Fin 2 → Eye
  Resolution : Sizei
  fovTextureSize : Eye → FovPort → ℚ → Sizei

/-- Source lines 172-173: the argument triples of the two
`ovrHmd_GetFovTextureSize` calls, in program order.  Both calls pass
`vrHmd->DefaultEyeFov[0]` as the fov argument. -/
def fovTextureSizeQueries (hmd : Hmd) : List (Eye × FovPort × ℚ) :=
  [(ovrEye_Left, hmd.DefaultEyeFov 0, PixelsPerDisplayPixel),
   (ovrEye_Right, hmd.DefaultEyeFov 0, PixelsPerDisplayPixel)]

/-- Source line 172. -/
def ovrEyeDimsLeft (hmd : Hmd) : Sizei :=
  hmd.fovTextureSize ovrEye_Left (hmd.DefaultEyeFov 0) PixelsPerDisplayPixel

/-- Source line 173. -/
def ovrEyeDimsRight (hmd : Hmd) : Sizei :=
  hmd.fovTextureSize ovrEye_Right (hmd.DefaultEyeFov 0) PixelsPerDisplayPixel

/-- Source lines 176-177: the shared render target is as wide as both eye
buffers together and as tall as the taller of the two. -/
def renderTargetSizeOf (l r : Sizei) : Sizei :=
  ⟨l.w + r.w, max l.h r.h⟩

/-- The `renderTargetSize` local of `WinMain`. -/
def renderTargetSize (hmd : Hmd) : Sizei :=
  renderTargetSizeOf (ovrEyeDimsLeft hmd) (ovrEyeDimsRight hmd)

/-- Source lines 180-183: the per-eye render viewports.  Viewport 0 covers
the left half, viewport 1 starts at `(renderTargetSize.w + 1) / 2` (C
integer division) and has the same size as viewport 0. -/
def vrEyeRenderViewport (rts : Sizei) : Fin 2 → Recti
  | 0 => ⟨⟨0, 0⟩, ⟨rts.w.tdiv 2, rts.h⟩⟩
  | 1 => ⟨⟨(rts.w + 1).tdiv 2, 0⟩, ⟨rts.w.tdiv 2, rts.h⟩⟩

/-- The subset of `D3D11_TEXTURE2D_DESC` fields the program fills in. -/
structure Texture2DDesc where
  Width : Int
  Height : Int
  MipLevels : Nat
  ArraySize : Nat
  Format : Nat
  SampleCount : Int
  BindFlags : Nat
deriving DecidableEq, Repr

/-- Model of `DXGI_FORMAT_D24_UNORM_S8_UINT` = 45. -/
def DXGI_FORMAT_D24_UNORM_S8_UINT : Nat := 45

/-- Model of `DXGI_FORMAT_R8G8B8A8_UNORM` = 28. -/
def DXGI_FORMAT_R8G8B8A8_UNORM : Nat := 28

/-- Model of `D3D11_BIND_DEPTH_STENCIL` = 0x40. -/
def D3D11_BIND_DEPTH_STENCIL : Nat := 64

/-- Model of `D3D11_BIND_SHADER_RESOURCE` = 0x8, `D3D11_BIND_RENDER_TARGET` = 0x20. -/
def D3D11_BIND_SHADER_RESOURCE : Nat := 8

def D3D11_BIND_RENDER_TARGET : Nat := 32

/-- Source lines 279-288: descriptor of the depth-stencil texture, sized to
the shared render target and sampled like it. -/
def depthStencilTextureDesc (rts : Sizei) (msCount : Int) : Texture2DDesc :=
  { Width := rts.w
    Height := rts.h
    MipLevels := 1
    ArraySize := 1
    Format := DXGI_FORMAT_D24_UNORM_S8_UINT
    SampleCount := msCount
    BindFlags := D3D11_BIND_DEPTH_STENCIL }

/-- Source lines 299-309: descriptor of the shared eye color texture. -/
def eyeTextureDesc (rts : Sizei) (msCount : Int) : Texture2DDesc :=
  { Width := rts.w
    Height := rts.h
    MipLevels := 1
    ArraySize := 1
    Format := DXGI_FORMAT_R8G8B8A8_UNORM
    SampleCount := msCount
    BindFlags := D3D11_BIND_SHADER_RESOURCE + D3D11_BIND_RENDER_TARGET }

/-- Source lines 315-328: descriptor of the single-sample intermediary
texture, created only when multisampling is enabled. -/
def intermediaryTextureDesc (rts : Sizei) : Texture2DDesc :=
  { Width := rts.w
    Height := rts.h
    MipLevels := 1
    ArraySize := 1
    Format := DXGI_FORMAT_R8G8B8A8_UNORM
    SampleCount := 1
    BindFlags := D3D11_BIND_SHADER_RESOURCE + D3D11_BIND_RENDER_TARGET }

/-- The fields of `ovrEyeRenderDesc` the program reads (filled in by
`ovrHmd_ConfigureRendering`). -/
structure EyeRenderDesc where
  Fov : FovPort
  HmdToEyeViewOffset : Vector3f
deriving DecidableEq, Repr

/-- The LibOVR math entry points the render loop calls whose bodies are SDK
code outside this repository, abstracted as functions of exactly the
arguments the program passes. -/
structure Sdk where
  quatFromAxisAngle : Vector3f → ℚ → Quatf
  matProjection : FovPort → ℚ → ℚ → Bool → Matrix4f
  lookAtRH : Vector3f → Vector3f → Vector3f → Matrix4f

/-- The two color textures that exist in the program. -/
inductive TextureRes
  | eyeTexture
  | intermediaryTexture
deriving DecidableEq, Repr

/-- The two shader resource views over those textures. -/
inductive SrvRes
  | eyeTextureSRV
  | intermediarySRV
deriving DecidableEq, Repr

/-- Model of `ovrRenderAPI_D3D11` = 5 in the 0.4 SDK enum. -/
def ovrRenderAPI_D3D11 : Nat := 5

/-- The fields of `ovrD3D11Texture.D3D11` that the program assigns. -/
structure OvrD3D11TextureData where
  API : Nat
  TextureSize : Sizei
  RenderViewport : Recti
  pTexture : TextureRes
  pSRView : SrvRes
deriving DecidableEq, Repr

/-- Source lines 335-347: the descriptor for eye 0.  With multisampling, the
texture handed over is the intermediary, otherwise the eye texture itself. -/
def vrEyeTexture0 (msCount : Int) (rts : Sizei) (vp0 : Recti) :
    OvrD3D11TextureData :=
  { API := ovrRenderAPI_D3D11
    TextureSize := rts
    RenderViewport := vp0
    pTexture := if 1 < msCount then .intermediaryTexture else .eyeTexture
    pSRView := if 1 < msCount then .intermediarySRV else .eyeTextureSRV }

/-- Source lines 350-351: descriptor 1 is a copy of descriptor 0 whose
`RenderViewport` is overwritten with viewport 1. -/
def vrEyeTexture1 (msCount : Int) (rts : Sizei) (vp0 vp1 : Recti) :
    OvrD3D11TextureData :=
  { vrEyeTexture0 msCount rts vp0 with RenderViewport := vp1 }

/-- Observable actions of one loop iteration: HMD calls and D3D context
commands, in issue order. -/
inductive Event
  | beginFrame (frameIndex : Nat)
  | getEyePoses
  | clearRenderTarget (color : List ℚ)
  | clearDepthStencil (depth : ℚ) (stencil : Nat)
  | setRenderTargets
  | setViewport (vp : Recti)
  | uploadConstants (data : List ℚ)
  | draw (vertexCount startVertex : Nat)
  | resolveSubresource (dst src : TextureRes) (format : Nat)
  | endFrame (tex0 tex1 : OvrD3D11TextureData)
  | recenterPose
  | dismissHSW
deriving DecidableEq, Repr

/-- The per-frame values the eye-render pass reads: the viewports and render
descriptions fixed at setup, the poses fetched by `ovrHmd_GetEyePoses`, and
the order `vrHmd->EyeRenderOrder` prescribes. -/
structure FrameInputs where
  eyeRenderViewport : Fin 2 → Recti
  eyeRenderDesc : Fin 2 → EyeRenderDesc
  eyeRenderPose : Fin 2 → Posef
  eyeRenderOrder : Fin 2 → Eye

/-- Source lines 414-455, one iteration of the two-eye loop: pick the eye
`EyeRenderOrder[i]`, set its viewport, build projection from its fov with
near 0.01 and far 10000 (right handed), compose the world pose from the
body yaw quaternion and the tracked eye pose, build the right-handed
look-at view, upload the transposed product and draw 3 vertices. -/
def renderEye (sdk : Sdk) (inp : FrameInputs) (i : Fin 2) : List Event :=
  let eye := inp.eyeRenderOrder i
  let vp := inp.eyeRenderViewport eye
  let currentEyePose := inp.eyeRenderPose eye
  let projection := sdk.matProjection (inp.eyeRenderDesc eye).Fov (1/100) 10000 true
  let quatBodyRotation := sdk.quatFromAxisAngle UpVector BodyYaw
  let worldPose : Posef :=
    ⟨quatMul quatBodyRotation currentEyePose.Rotation,
     vecAdd BodyPosition (quatRotate quatBodyRotation currentEyePose.Translation)⟩
  let up := quatRotate worldPose.Rotation UpVector
  let forward := quatRotate worldPose.Rotation ForwardVector
  let view := sdk.lookAtRH worldPose.Translation (vecAdd worldPose.Translation forward) up
  let mvp := matMul projection view
  let transposedMvp := matTransposed mvp
  [Event.setViewport vp,
   Event.uploadConstants (matToList transposedMvp),
   Event.draw 3 0]

/-- Source lines 399-466: the rendering part of one loop iteration. -/
def frameTrace (sdk : Sdk) (inp : FrameInputs) (msCount : Int)
    (tex0 tex1 : OvrD3D11TextureData) : List Event :=
  [Event.beginFrame 0, Event.getEyePoses,
   Event.clearRenderTarget [1/5, 3/10, 1/5, 1],
   Event.clearDepthStencil 1 0,
   Event.setRenderTargets]
  ++ renderEye sdk inp 0 ++ renderEye sdk inp 1
  ++ (if 1 < msCount then
        [Event.resolveSubresource .intermediaryTexture .eyeTexture
          DXGI_FORMAT_R8G8B8A8_UNORM]
      else [])
  ++ [Event.endFrame tex0 tex1]

/-- Model of `WM_QUIT` = 0x0012. -/
def WM_QUIT : Nat := 18

/-- Model of `WM_KEYDOWN` = 0x0100. -/
def WM_KEYDOWN : Nat := 256

/-- An OS message, identified by its message code. -/
structure Msg where
  message : Nat
deriving DecidableEq, Repr

/-- Source lines 384-393, the body of the `PeekMessage` loop for one
message: a quit message clears the loop flag; a key-down message issues a
recenter followed by a health-and-safety-warning dismissal. -/
def pumpStep (acc : Bool × List Event) (m : Msg) : Bool × List Event :=
  let k := if m.message = WM_QUIT then false else acc.1
  let calls :=
    if m.message = WM_KEYDOWN then [Event.recenterPose, Event.dismissHSW] else []
  (k, acc.2 ++ calls)

/-- Source lines 383-397: drain one batch of queued messages, starting from
loop flag `k`; returns the updated flag and the HMD calls issued. -/
def pumpMessages (k : Bool) (batch : List Msg) : Bool × List Event :=
  batch.foldl pumpStep (k, [])

/-- Source lines 380-467: the frame loop over a finite schedule of message
batches, one batch per iteration.  The flag is tested only at the top of an
iteration; after draining the batch the iteration always renders a full
frame. -/
def runLoop (sdk : Sdk) (inp : FrameInputs) (msCount : Int)
    (tex0 tex1 : OvrD3D11TextureData) :
    Bool → List (List Msg) → List Event
  | _, [] => []
  | false, _ :: _ => []
  | true, batch :: rest =>
      let p := pumpMessages true batch
      p.2 ++ frameTrace sdk inp msCount tex0 tex1
          ++ runLoop sdk inp msCount tex0 tex1 p.1 rest

/-- The reference-counted graphics objects and handles the program
acquires. -/
inductive GObj
  | hmdDevice
  | swapChain
  | device
  | context
  | backBufferTex
  | backBufferRTV
  | depthStencilTex
  | depthStencilView
  | eyeTex
  | eyeTexSRV
  | eyeTexRTV
  | intermediaryTex
  | intermediarySRV
  | intermediaryRTV
  | blobVertexShader
  | vertexShader
  | blobPixelShader
  | pixelShader
  | inputLayout
  | vertexBuffer
  | constantBuffer
deriving DecidableEq, Repr

/-- Acquisition order over the whole program: `ovrHmd_Create` (line 158),
`D3D11CreateDeviceAndSwapChain` (line 257, output arguments in order swap
chain, device, context), `GetBuffer`/`CreateRenderTargetView` for the back
buffer (274-275), the depth-stencil pair (288, 295), the eye texture and
its two views (309-311), the intermediary triple when multisampling
(328-330), then `SetupScene` (552-581): vertex blob, vertex shader, pixel
blob, pixel shader, input layout, vertex buffer, constant buffer. -/
def acquisitionOrder (msCount : Int) : List GObj :=
  [GObj.hmdDevice, GObj.swapChain, GObj.device, GObj.context,
   GObj.backBufferTex, GObj.backBufferRTV,
   GObj.depthStencilTex, GObj.depthStencilView,
   GObj.eyeTex, GObj.eyeTexSRV, GObj.eyeTexRTV]
  ++ (if 1 < msCount then
        [GObj.intermediaryTex, GObj.intermediarySRV, GObj.intermediaryRTV]
      else [])
  ++ [GObj.blobVertexShader, GObj.vertexShader,
      GObj.blobPixelShader, GObj.pixelShader,
      GObj.inputLayout, GObj.vertexBuffer, GObj.constantBuffer]

/-- Releases performed during setup rather than at shutdown: the transient
back-buffer handle (line 276) and the two shader blobs (lines 592-593,
pixel blob before vertex blob). -/
def setupReleaseOrder : List GObj :=
  [GObj.backBufferTex, GObj.blobPixelShader, GObj.blobVertexShader]

/-- Releases at shutdown, in program order: `DestroyScene` (lines 598-604:
constant buffer, vertex buffer, input layout, vertex shader, pixel shader)
followed by the cleanup in `WinMain` (lines 474-493: the intermediary
objects when non-null, depth-stencil view and texture, eye-texture views
and texture, back-buffer view, swap chain, context, device, and finally
`ovrHmd_Destroy`). -/
def shutdownReleaseOrder (msCount : Int) : List GObj :=
  [GObj.constantBuffer, GObj.vertexBuffer, GObj.inputLayout,
   GObj.vertexShader, GObj.pixelShader]
  ++ (if 1 < msCount then
        [GObj.intermediarySRV, GObj.intermediaryRTV, GObj.intermediaryTex]
      else [])
  ++ [GObj.depthStencilView, GObj.depthStencilTex,
      GObj.eyeTexRTV, GObj.eyeTexSRV, GObj.eyeTex,
      GObj.backBufferRTV, GObj.swapChain, GObj.context, GObj.device,
      GObj.hmdDevice]

/-- Model of `EXIT_SUCCESS`. -/
def EXIT_SUCCESS : Int := 0

/-- Model of `EXIT_FAILURE`. -/
def EXIT_FAILURE : Int := 1

/-- Results of the unchecked environment calls `WinMain` makes, plus the
result of `ovrHmd_Create`, the one call whose result the program inspects.
Every field other than `hmdCreate` is ignored by the control flow of the
embedded program. -/
structure Env where
  hmdCreate : Option Hmd
  deviceCreateResult : Int
  vertexCompileResult : Int
  pixelCompileResult : Int
  configureTrackingResult : Bool
  configureRenderingDesc : Fin 2 → EyeRenderDesc
  eyeRenderPose : Fin 2 → Posef

/-- Top-level observable actions of the program. -/
inductive ProgEvent
  | showMessageBox
  | shutdownLibOVR
  | configureTracking
  | fovQuery (eye : Eye) (fov : FovPort) (pixelsPerDisplay : ℚ)
  | acquire (o : GObj)
  | release (o : GObj)
  | configureRendering
  | setEnabledCaps
  | attachToWindow
  | loopStep (e : Event)
  | destroyHmd
deriving DecidableEq, Repr

/-- The per-frame inputs assembled during setup for the given device. -/
def frameInputsOf (env : Env) (hmd : Hmd) : FrameInputs :=
  { eyeRenderViewport := vrEyeRenderViewport (renderTargetSize hmd)
    eyeRenderDesc := env.configureRenderingDesc
    eyeRenderPose := env.eyeRenderPose
    eyeRenderOrder := hmd.EyeRenderOrder }

/-- The two texture descriptors assembled during setup (lines 335-351). -/
def eyeTexturePairOf (hmd : Hmd) (msCount : Int) :
    OvrD3D11TextureData × OvrD3D11TextureData :=
  let rts := renderTargetSize hmd
  (vrEyeTexture0 msCount rts (vrEyeRenderViewport rts 0),
   vrEyeTexture1 msCount rts (vrEyeRenderViewport rts 0) (vrEyeRenderViewport rts 1))

/-- Model of `WinMain` (lines 105-496) as a trace-producing function: the returned
list is the sequence of observable actions, the integer the exit status.
When `ovrHmd_Create` yields no device the program shows a message box,
shuts the library down and exits with `EXIT_FAILURE` (lines 158-165);
otherwise it performs the whole setup, runs the loop over the message
schedule, releases its resources and returns `EXIT_SUCCESS`. -/
def programRun (sdk : Sdk) (env : Env) (msCount : Int)
    (sched : List (List Msg)) : List ProgEvent × Int :=
  match env.hmdCreate with
  | none => ([ProgEvent.showMessageBox, ProgEvent.shutdownLibOVR], EXIT_FAILURE)
  | some hmd =>
      let texPair := eyeTexturePairOf hmd msCount
      ([ProgEvent.acquire GObj.hmdDevice, ProgEvent.configureTracking]
        ++ (fovTextureSizeQueries hmd).map
              (fun q => ProgEvent.fovQuery q.1 q.2.1 q.2.2)
        ++ [ProgEvent.acquire GObj.swapChain, ProgEvent.acquire GObj.device,
            ProgEvent.acquire GObj.context,
            ProgEvent.acquire GObj.backBufferTex,
            ProgEvent.acquire GObj.backBufferRTV,
            ProgEvent.release GObj.backBufferTex,
            ProgEvent.acquire GObj.depthStencilTex,
            ProgEvent.acquire GObj.depthStencilView,
            ProgEvent.acquire GObj.eyeTex,
            ProgEvent.acquire GObj.eyeTexSRV,
            ProgEvent.acquire GObj.eyeTexRTV]
        ++ (if 1 < msCount then
              [ProgEvent.acquire GObj.intermediaryTex,
               ProgEvent.acquire GObj.intermediarySRV,
               ProgEvent.acquire GObj.intermediaryRTV]
            else [])
        ++ [ProgEvent.configureRendering, ProgEvent.setEnabledCaps,
            ProgEvent.attachToWindow]
        ++ [ProgEvent.acquire GObj.blobVertexShader,
            ProgEvent.acquire GObj.vertexShader,
            ProgEvent.acquire GObj.blobPixelShader,
            ProgEvent.acquire GObj.pixelShader,
            ProgEvent.acquire GObj.inputLayout,
            ProgEvent.acquire GObj.vertexBuffer,
            ProgEvent.acquire GObj.constantBuffer,
            ProgEvent.release GObj.blobPixelShader,
            ProgEvent.release GObj.blobVertexShader]
        ++ (runLoop sdk (frameInputsOf env hmd) msCount texPair.1 texPair.2
              true sched).map ProgEvent.loopStep
        ++ (shutdownReleaseOrder msCount).dropLast.map ProgEvent.release
        ++ [ProgEvent.destroyHmd, ProgEvent.shutdownLibOVR],
       EXIT_SUCCESS)

/-- Claim C2: the shared offscreen render target is `(left.w + right.w)`
wide and `max left.h right.h` tall, and both the depth-stencil texture and
the eye color texture are created with exactly these dimensions. -/
theorem renderTarget_dimensions_spec (l r : Sizei) (msCount : Int) :
    (renderTargetSizeOf l r).w = l.w + r.w
    ∧ (renderTargetSizeOf l r).h = max l.h r.h
    ∧ (depthStencilTextureDesc (renderTargetSizeOf l r) msCount).Width = l.w + r.w
    ∧ (depthStencilTextureDesc (renderTargetSizeOf l r) msCount).Height = max l.h r.h
    ∧ (eyeTextureDesc (renderTargetSizeOf l r) msCount).Width = l.w + r.w
    ∧ (eyeTextureDesc (renderTargetSizeOf l r) msCount).Height = max l.h r.h :=
  ⟨rfl, rfl, rfl, rfl, rfl, rfl⟩

/-- Claim C3: viewport 0 sits at `(0,0)` with size `(w/2, h)` (C integer
division), viewport 1 sits at `((w+1)/2, 0)` with the same size, and for
non-negative widths `(w+1)/2` differs from `w/2` exactly when `w` is odd. -/
theorem viewport_layout_spec (w h : Int) (hw : 0 ≤ w) :
    vrEyeRenderViewport ⟨w, h⟩ 0 = ⟨⟨0, 0⟩, ⟨w.tdiv 2, h⟩⟩
    ∧ vrEyeRenderViewport ⟨w, h⟩ 1 = ⟨⟨(w + 1).tdiv 2, 0⟩, ⟨w.tdiv 2, h⟩⟩
    ∧ ((w + 1).tdiv 2 ≠ w.tdiv 2 ↔ Odd w) := by
  refine ⟨rfl, rfl, ?_⟩
  rw [Int.tdiv_eq_ediv (by omega) (by omega), Int.tdiv_eq_ediv hw (by omega),
    Int.odd_iff]
  omega

/-- Witness for `viewport_layout_spec` at the odd width 5. -/
theorem viewport_layout_spec_witness :
    vrEyeRenderViewport ⟨5, 3⟩ 0 = ⟨⟨0, 0⟩, ⟨(5 : Int).tdiv 2, 3⟩⟩
    ∧ vrEyeRenderViewport ⟨5, 3⟩ 1 = ⟨⟨((5 : Int) + 1).tdiv 2, 0⟩, ⟨(5 : Int).tdiv 2, 3⟩⟩
    ∧ (((5 : Int) + 1).tdiv 2 ≠ (5 : Int).tdiv 2 ↔ Odd (5 : Int)) :=
  viewport_layout_spec 5 3 (by decide)

/-- An HMD whose two default fov descriptors differ, as on real hardware. -/
def asymmetricHmd : Hmd :=
  { DefaultEyeFov := fun e => if e = 0 then ⟨1, 1, 1, 1⟩ else ⟨2, 2, 2, 2⟩
    EyeRenderOrder := fun i => i
    Resolution := ⟨1920, 1080⟩
    fovTextureSize := fun _ _ _ => ⟨960, 1080⟩ }

/-- Counterexample to claim C6 as stated: on an HMD whose per-eye default
fov descriptors differ, the argument list of the two
`ovrHmd_GetFovTextureSize` calls is not `[(left, left fov), (right, right
fov)]` — the right-eye query does not receive its own right-eye
descriptor. -/
theorem fovQuery_own_fov_counterexample :
    fovTextureSizeQueries asymmetricHmd ≠
      [(ovrEye_Left, asymmetricHmd.DefaultEyeFov ovrEye_Left, PixelsPerDisplayPixel),
       (ovrEye_Right, asymmetricHmd.DefaultEyeFov ovrEye_Right, PixelsPerDisplayPixel)] := by
  decide

/-- Claim C6 as amended: each `ovrHmd_GetFovTextureSize` call passes the
identifier of its own eye, but both calls pass the default left-eye
field-of-view descriptor `DefaultEyeFov[0]`. -/
theorem fovQuery_args_spec (hmd : Hmd) :
    fovTextureSizeQueries hmd =
      [(ovrEye_Left, hmd.DefaultEyeFov 0, PixelsPerDisplayPixel),
       (ovrEye_Right, hmd.DefaultEyeFov 0, PixelsPerDisplayPixel)]
    ∧ (fovTextureSizeQueries hmd).map Prod.fst = [ovrEye_Left, ovrEye_Right] :=
  ⟨rfl, rfl⟩

/-- Claim C10: descriptor 1 agrees with descriptor 0 on the API header, the
texture size, the texture pointer and the shader-resource-view pointer, and
differs only in its render viewport, which is viewport 1. -/
theorem eyeTextureDesc_copy_spec (msCount : Int) (rts : Sizei) (vp0 vp1 : Recti) :
    (vrEyeTexture1 msCount rts vp0 vp1).API = (vrEyeTexture0 msCount rts vp0).API
    ∧ (vrEyeTexture1 msCount rts vp0 vp1).TextureSize
        = (vrEyeTexture0 msCount rts vp0).TextureSize
    ∧ (vrEyeTexture1 msCount rts vp0 vp1).pTexture
        = (vrEyeTexture0 msCount rts vp0).pTexture
    ∧ (vrEyeTexture1 msCount rts vp0 vp1).pSRView
        = (vrEyeTexture0 msCount rts vp0).pSRView
    ∧ (vrEyeTexture1 msCount rts vp0 vp1).RenderViewport = vp1 :=
  ⟨rfl, rfl, rfl, rfl, rfl⟩

/-- Claim C5: the multisample resolve appears in the trace of a frame exactly
when the configured sample count exceeds 1, and the texture (and view) in
the descriptors handed to the compositor at `ovrHmd_EndFrame` is the
intermediary one exactly then, the eye texture otherwise; the frame ends by
handing over those descriptors. -/
theorem multisample_resolve_spec (sdk : Sdk) (inp : FrameInputs) (msCount : Int)
    (t0 t1 : OvrD3D11TextureData) (hmd : Hmd) :
    ((Event.resolveSubresource TextureRes.intermediaryTexture TextureRes.eyeTexture
        DXGI_FORMAT_R8G8B8A8_UNORM ∈ frameTrace sdk inp msCount t0 t1) ↔ 1 < msCount)
    ∧ (eyeTexturePairOf hmd msCount).1.pTexture
        = (if 1 < msCount then TextureRes.intermediaryTexture else TextureRes.eyeTexture)
    ∧ (eyeTexturePairOf hmd msCount).2.pTexture
        = (if 1 < msCount then TextureRes.intermediaryTexture else TextureRes.eyeTexture)
    ∧ (eyeTexturePairOf hmd msCount).1.pSRView
        = (if 1 < msCount then SrvRes.intermediarySRV else SrvRes.eyeTextureSRV)
    ∧ (eyeTexturePairOf hmd msCount).2.pSRView
        = (if 1 < msCount then SrvRes.intermediarySRV else SrvRes.eyeTextureSRV)
    ∧ Event.endFrame t0 t1 ∈ frameTrace sdk inp msCount t0 t1 := by
  by_cases h : 1 < msCount <;>
    simp [frameTrace, renderEye, eyeTexturePairOf, vrEyeTexture0, vrEyeTexture1, h]

/-- Counterexample to claim C4 as stated: with the configured sample count
4, the shutdown release sequence is not the reverse of the acquisition
sequence, and the back-buffer handle acquired during setup is not released
at shutdown at all (it is released during setup, line 276). -/
theorem release_order_counterexample :
    shutdownReleaseOrder 4 ≠ (acquisitionOrder 4).reverse
    ∧ GObj.backBufferTex ∈ acquisitionOrder 4
    ∧ GObj.backBufferTex ∉ shutdownReleaseOrder 4 := by
  decide

/-- Claim C4 as amended: every graphics object acquired during setup is
released exactly once over the whole program, the back-buffer handle and
the shader blobs being released during setup and all others exactly once at
shutdown, but the shutdown release order (`DestroyScene` followed by
`WinMain` cleanup) is not exactly the reverse of the acquisition order. -/
theorem release_once_not_reverse (msCount : Int) :
    (setupReleaseOrder ++ shutdownReleaseOrder msCount).Perm (acquisitionOrder msCount)
    ∧ (shutdownReleaseOrder msCount).Nodup
    ∧ shutdownReleaseOrder msCount ≠ (acquisitionOrder msCount).reverse := by
  by_cases h : 1 < msCount <;>
    simp only [setupReleaseOrder, shutdownReleaseOrder, acquisitionOrder, h,
      if_true, if_false] <;> decide

/-- The per-eye command block as the specification words it: set the
viewport; project from the fov of the eye with near `0.01` and far `10000`
(right handed); compose a world pose whose rotation is the body-yaw
quaternion (axis `(0,1,0)`, angle `0.9`) times the tracked eye rotation
and whose translation is the body position `(0.5, 0.5, 0)` plus the
body-yaw rotation of the tracked eye translation; build the right-handed
look-at view from that pose; upload the transposed projection-times-view
product; draw 3 vertices. -/
def specEyeBlock (sdk : Sdk) (inp : FrameInputs) (i : Fin 2) : List Event :=
  let eye := inp.eyeRenderOrder i
  let bodyQuat := sdk.quatFromAxisAngle ⟨0, 1, 0⟩ (9/10)
  let pose := inp.eyeRenderPose eye
  let rotation := quatMul bodyQuat pose.Rotation
  let translation :=
    vecAdd ⟨1/2, 1/2, 0⟩ (quatRotate bodyQuat pose.Translation)
  let view := sdk.lookAtRH translation
      (vecAdd translation (quatRotate rotation ⟨0, 0, -1⟩))
      (quatRotate rotation ⟨0, 1, 0⟩)
  let proj := sdk.matProjection (inp.eyeRenderDesc eye).Fov (1/100) 10000 true
  [Event.setViewport (inp.eyeRenderViewport eye),
   Event.uploadConstants (matToList (matTransposed (matMul proj view))),
   Event.draw 3 0]

/-- Claim C1: each frame processes the two eyes in the order
`EyeRenderOrder` reports and, per eye, issues exactly the block the
specification describes — viewport, projection with near `0.01` and far
`10000`, world pose composed from the fixed body yaw `0.9` about `(0,1,0)`
and body position `(0.5,0.5,0)`, right-handed look-at view, transposed
`projection * view` uploaded as 16 scalars, and a 3-vertex draw.  The
equation exhibits the uploaded matrix as a function of the tracked pose,
the fov, and the fixed constants alone, so the composition is
deterministic in its inputs. -/
theorem frame_renders_eyes_per_spec (sdk : Sdk) (inp : FrameInputs)
    (msCount : Int) (t0 t1 : OvrD3D11TextureData) :
    frameTrace sdk inp msCount t0 t1 =
      [Event.beginFrame 0, Event.getEyePoses,
       Event.clearRenderTarget [1/5, 3/10, 1/5, 1],
       Event.clearDepthStencil 1 0,
       Event.setRenderTargets]
      ++ specEyeBlock sdk inp 0 ++ specEyeBlock sdk inp 1
      ++ (if 1 < msCount then
            [Event.resolveSubresource TextureRes.intermediaryTexture
              TextureRes.eyeTexture DXGI_FORMAT_R8G8B8A8_UNORM]
          else [])
      ++ [Event.endFrame t0 t1]
    ∧ ∀ i : Fin 2, renderEye sdk inp i = specEyeBlock sdk inp i :=
  ⟨rfl, fun _ => rfl⟩

/-- The HMD calls one message contributes: a key-down yields a recenter
followed by a warning dismissal, anything else yields nothing. -/
def keydownCalls (m : Msg) : List Event :=
  if m.message = WM_KEYDOWN then [Event.recenterPose, Event.dismissHSW] else []

lemma foldl_pumpStep_fst (batch : List Msg) (acc : Bool × List Event) :
    (batch.foldl pumpStep acc).1
      = (acc.1 && decide (∀ m ∈ batch, m.message ≠ WM_QUIT)) := by
  induction batch generalizing acc with
  | nil => simp
  | cons m rest ih =>
      rw [List.foldl_cons, ih]
      by_cases h : m.message = WM_QUIT <;>
        simp [pumpStep, h, List.forall_mem_cons]

lemma foldl_pumpStep_snd (batch : List Msg) (acc : Bool × List Event) :
    (batch.foldl pumpStep acc).2 = acc.2 ++ batch.flatMap keydownCalls := by
  induction batch generalizing acc with
  | nil => simp
  | cons m rest ih =>
      rw [List.foldl_cons, ih]
      simp [pumpStep, keydownCalls, List.flatMap_cons, List.append_assoc]

lemma pumpMessages_fst (k : Bool) (batch : List Msg) :
    (pumpMessages k batch).1
      = (k && decide (∀ m ∈ batch, m.message ≠ WM_QUIT)) :=
  foldl_pumpStep_fst batch (k, [])

lemma pumpMessages_snd (k : Bool) (batch : List Msg) :
    (pumpMessages k batch).2 = batch.flatMap keydownCalls :=
  foldl_pumpStep_snd batch (k, [])

/-- Claim C8: draining a batch issues exactly one recenter and one
health-and-safety-warning dismissal per key-down message, issues nothing
for any other message, and clears the loop flag exactly when a quit message
is present (the flag never returns to `true`). -/
theorem message_pump_spec (k : Bool) (batch : List Msg) :
    (pumpMessages k batch).2.count Event.recenterPose
      = batch.countP (fun m => m.message == WM_KEYDOWN)
    ∧ (pumpMessages k batch).2.count Event.dismissHSW
      = batch.countP (fun m => m.message == WM_KEYDOWN)
    ∧ (∀ e ∈ (pumpMessages k batch).2,
        e = Event.recenterPose ∨ e = Event.dismissHSW)
    ∧ ((pumpMessages k batch).1 = false
        ↔ (k = false ∨ ∃ m ∈ batch, m.message = WM_QUIT)) := by
  rw [pumpMessages_snd, pumpMessages_fst]
  refine ⟨?_, ?_, ?_, ?_⟩
  · induction batch with
    | nil => simp
    | cons m rest ih =>
        by_cases h : m.message = WM_KEYDOWN <;>
          simp [List.flatMap_cons, keydownCalls, h, List.countP_cons, ih]
  · induction batch with
    | nil => simp
    | cons m rest ih =>
        by_cases h : m.message = WM_KEYDOWN <;>
          simp [List.flatMap_cons, keydownCalls, h, List.countP_cons, ih]
  · intro e he
    rcases List.mem_flatMap.mp he with ⟨m, _, hm⟩
    unfold keydownCalls at hm
    by_cases h : m.message = WM_KEYDOWN <;> simp [h] at hm
    rcases hm with h1 | h1 <;> simp [h1]
  · cases k <;> simp [not_forall]

/-- Does the event begin an HMD frame? -/
def isBeginFrame : Event → Bool
  | Event.beginFrame _ => true
  | _ => false

/-- Does the event end an HMD frame? -/
def isEndFrame : Event → Bool
  | Event.endFrame _ _ => true
  | _ => false

/-- Is the event a draw call? -/
def isDraw : Event → Bool
  | Event.draw _ _ => true
  | _ => false

/-- Is the event a multisample resolve? -/
def isResolve : Event → Bool
  | Event.resolveSubresource _ _ _ => true
  | _ => false

lemma frameTrace_counts (sdk : Sdk) (inp : FrameInputs) (msCount : Int)
    (t0 t1 : OvrD3D11TextureData) :
    (frameTrace sdk inp msCount t0 t1).countP isBeginFrame = 1
    ∧ (frameTrace sdk inp msCount t0 t1).countP isEndFrame = 1
    ∧ (frameTrace sdk inp msCount t0 t1).countP isDraw = 2
    ∧ (frameTrace sdk inp msCount t0 t1).countP isResolve
        = (if 1 < msCount then 1 else 0) := by
  by_cases h : 1 < msCount <;>
    simp [frameTrace, renderEye, h, List.countP_append, List.countP_cons,
      isBeginFrame, isEndFrame, isDraw, isResolve]

lemma pump_calls_countP (p : Event → Bool)
    (hrec : p Event.recenterPose = false) (hdis : p Event.dismissHSW = false)
    (batch : List Msg) :
    (batch.flatMap keydownCalls).countP p = 0 := by
  induction batch with
  | nil => simp
  | cons m rest ih =>
      by_cases h : m.message = WM_KEYDOWN <;>
        simp [List.flatMap_cons, keydownCalls, h, List.countP_append,
          List.countP_cons, hrec, hdis, ih]

lemma runLoop_flag_false (sdk : Sdk) (inp : FrameInputs) (msCount : Int)
    (t0 t1 : OvrD3D11TextureData) (sched : List (List Msg)) :
    runLoop sdk inp msCount t0 t1 false sched = [] := by
  cases sched <;> rfl

lemma runLoop_countP_first_quit (p : Event → Bool)
    (hrec : p Event.recenterPose = false) (hdis : p Event.dismissHSW = false)
    (sdk : Sdk) (inp : FrameInputs) (msCount : Int)
    (t0 t1 : OvrD3D11TextureData) (pre : List (List Msg)) (qb : List Msg)
    (post : List (List Msg))
    (hpre : ∀ b ∈ pre, ∀ m ∈ b, m.message ≠ WM_QUIT)
    (hq : ∃ m ∈ qb, m.message = WM_QUIT) :
    (runLoop sdk inp msCount t0 t1 true (pre ++ qb :: post)).countP p
      = (pre.length + 1) * (frameTrace sdk inp msCount t0 t1).countP p := by
  induction pre with
  | nil =>
      have hfst : (pumpMessages true qb).1 = false := by
        rw [pumpMessages_fst]
        have : ¬ ∀ m ∈ qb, m.message ≠ WM_QUIT := by
          rcases hq with ⟨m, hm, hmsg⟩
          exact fun hall => hall m hm hmsg
        simp [this]
      simp only [List.nil_append, runLoop, List.countP_append, hfst,
        runLoop_flag_false, pumpMessages_snd,
        pump_calls_countP p hrec hdis, List.countP_nil, List.length_nil]
      omega
  | cons b pre ih =>
      have hb : ∀ m ∈ b, m.message ≠ WM_QUIT := hpre b (by simp)
      have hfst : (pumpMessages true b).1 = true := by
        rw [pumpMessages_fst]
        simp only [Bool.true_and, decide_eq_true_eq]
        exact hb
      have ihx := ih (fun c hc => hpre c (by simp [hc]))
      simp only [List.cons_append, runLoop, List.countP_append, hfst,
        pumpMessages_snd, pump_calls_countP p hrec hdis, List.countP_nil,
        List.append_eq, ihx, List.length_cons]
      ring

/-- Claim C9: if the first quit message arrives in iteration `pre.length`,
the loop still renders the complete frame of that iteration — one begin-frame,
two draws, the resolve when multisampling is on, one end-frame — so the
run contains exactly `pre.length + 1` frames and no frame is begun
afterwards. -/
theorem quit_finishes_current_frame (sdk : Sdk) (inp : FrameInputs)
    (msCount : Int) (t0 t1 : OvrD3D11TextureData) (pre : List (List Msg))
    (qb : List Msg) (post : List (List Msg))
    (hpre : ∀ b ∈ pre, ∀ m ∈ b, m.message ≠ WM_QUIT)
    (hq : ∃ m ∈ qb, m.message = WM_QUIT) :
    (runLoop sdk inp msCount t0 t1 true (pre ++ qb :: post)).countP isBeginFrame
      = pre.length + 1
    ∧ (runLoop sdk inp msCount t0 t1 true (pre ++ qb :: post)).countP isEndFrame
      = pre.length + 1
    ∧ (runLoop sdk inp msCount t0 t1 true (pre ++ qb :: post)).countP isDraw
      = 2 * (pre.length + 1)
    ∧ (runLoop sdk inp msCount t0 t1 true (pre ++ qb :: post)).countP isResolve
      = (if 1 < msCount then pre.length + 1 else 0) := by
  obtain ⟨h1, h2, h3, h4⟩ := frameTrace_counts sdk inp msCount t0 t1
  refine ⟨?_, ?_, ?_, ?_⟩
  · rw [runLoop_countP_first_quit isBeginFrame rfl rfl sdk inp msCount t0 t1
      pre qb post hpre hq, h1, Nat.mul_one]
  · rw [runLoop_countP_first_quit isEndFrame rfl rfl sdk inp msCount t0 t1
      pre qb post hpre hq, h2, Nat.mul_one]
  · rw [runLoop_countP_first_quit isDraw rfl rfl sdk inp msCount t0 t1
      pre qb post hpre hq, h3, Nat.mul_comm]
  · rw [runLoop_countP_first_quit isResolve rfl rfl sdk inp msCount t0 t1
      pre qb post hpre hq, h4]
    by_cases h : 1 < msCount <;> simp [h]

/-- A constant zero matrix standing in for an arbitrary SDK answer. -/
def zeroMatrix : Matrix4f := ⟨fun _ _ => 0⟩

/-- A concrete SDK valuation used to instantiate universally quantified
statements. -/
def testSdk : Sdk :=
  { quatFromAxisAngle := fun _ _ => ⟨0, 0, 0, 1⟩
    matProjection := fun _ _ _ _ => zeroMatrix
    lookAtRH := fun _ _ _ => zeroMatrix }

/-- A concrete identity pose. -/
def testPose : Posef := ⟨⟨0, 0, 0, 1⟩, ⟨0, 0, 0⟩⟩

/-- Concrete per-frame inputs. -/
def testInputs : FrameInputs :=
  { eyeRenderViewport := fun _ => ⟨⟨0, 0⟩, ⟨960, 1080⟩⟩
    eyeRenderDesc := fun _ => ⟨⟨1, 1, 1, 1⟩, ⟨0, 0, 0⟩⟩
    eyeRenderPose := fun _ => testPose
    eyeRenderOrder := fun i => i }

/-- A concrete texture descriptor. -/
def testTex : OvrD3D11TextureData :=
  ⟨ovrRenderAPI_D3D11, ⟨1920, 1080⟩, ⟨⟨0, 0⟩, ⟨960, 1080⟩⟩,
   TextureRes.eyeTexture, SrvRes.eyeTextureSRV⟩

/-- Witness for `quit_finishes_current_frame`: a key-down iteration, then
the iteration whose batch holds the quit message, then one further
scheduled batch that is never processed; exactly two frames are rendered. -/
theorem quit_finishes_current_frame_witness :
    (runLoop testSdk testInputs 4 testTex testTex true
        ([[⟨WM_KEYDOWN⟩]] ++ [⟨WM_QUIT⟩] :: [[⟨7⟩]])).countP isBeginFrame
      = [[(⟨WM_KEYDOWN⟩ : Msg)]].length + 1
    ∧ (runLoop testSdk testInputs 4 testTex testTex true
        ([[⟨WM_KEYDOWN⟩]] ++ [⟨WM_QUIT⟩] :: [[⟨7⟩]])).countP isEndFrame
      = [[(⟨WM_KEYDOWN⟩ : Msg)]].length + 1
    ∧ (runLoop testSdk testInputs 4 testTex testTex true
        ([[⟨WM_KEYDOWN⟩]] ++ [⟨WM_QUIT⟩] :: [[⟨7⟩]])).countP isDraw
      = 2 * ([[(⟨WM_KEYDOWN⟩ : Msg)]].length + 1)
    ∧ (runLoop testSdk testInputs 4 testTex testTex true
        ([[⟨WM_KEYDOWN⟩]] ++ [⟨WM_QUIT⟩] :: [[⟨7⟩]])).countP isResolve
      = (if (1 : Int) < 4 then [[(⟨WM_KEYDOWN⟩ : Msg)]].length + 1 else 0) :=
  quit_finishes_current_frame testSdk testInputs 4 testTex testTex
    [[⟨WM_KEYDOWN⟩]] [⟨WM_QUIT⟩] [[⟨7⟩]]
    (by decide) ⟨⟨WM_QUIT⟩, by decide, rfl⟩

/-- Claim C7: the program branches on the result of exactly one call.  When
`ovrHmd_Create` yields no device the whole observable behavior is a message
box followed by the library shutdown — no graphics initialization — and the
exit status is `EXIT_FAILURE`, which is not the success status; for every
other environment valuation (all other call results being fields of `Env`
the control flow ignores) the program runs the loop and returns
`EXIT_SUCCESS`. -/
theorem hmd_create_only_checked (sdk : Sdk) (env : Env) (msCount : Int)
    (sched : List (List Msg)) :
    (env.hmdCreate = none →
      programRun sdk env msCount sched
          = ([ProgEvent.showMessageBox, ProgEvent.shutdownLibOVR], EXIT_FAILURE)
        ∧ (programRun sdk env msCount sched).2 ≠ EXIT_SUCCESS)
    ∧ (env.hmdCreate ≠ none →
        (programRun sdk env msCount sched).2 = EXIT_SUCCESS) := by
  constructor
  · intro h
    constructor
    · simp [programRun, h]
    · simp [programRun, h, EXIT_FAILURE, EXIT_SUCCESS]
  · intro h
    obtain ⟨hmd, hh⟩ := Option.ne_none_iff_exists.mp h
    simp [programRun, ← hh]

/-- An environment valuation where the HMD is absent. -/
def envNoHmd : Env :=
  { hmdCreate := none
    deviceCreateResult := 0
    vertexCompileResult := 0
    pixelCompileResult := 0
    configureTrackingResult := true
    configureRenderingDesc := fun _ => ⟨⟨1, 1, 1, 1⟩, ⟨0, 0, 0⟩⟩
    eyeRenderPose := fun _ => testPose }

/-- The same valuation with the HMD present. -/
def envWithHmd : Env := { envNoHmd with hmdCreate := some asymmetricHmd }

/-- Witness for `hmd_create_only_checked`: the absent-HMD run fails with
exactly the message-box trace, the present-HMD run exits successfully. -/
theorem hmd_create_only_checked_witness :
    programRun testSdk envNoHmd 4 []
        = ([ProgEvent.showMessageBox, ProgEvent.shutdownLibOVR], EXIT_FAILURE)
    ∧ (programRun testSdk envWithHmd 4 []).2 = EXIT_SUCCESS :=
  ⟨((hmd_create_only_checked testSdk envNoHmd 4 []).1 rfl).1,
   (hmd_create_only_checked testSdk envWithHmd 4 []).2
     (Option.some_ne_none asymmetricHmd)⟩
